import Mathlib

/-!
Shallow embedding of `src/repozytoria/generate_wavs` (the matrix-runner
core in `main.py` together with the configuration tables it reads).

Python dictionaries preserve insertion order, so a parameter set
`dict[str, tuple[...]]` is embedded as an association list
`List (String × List Scalar)`; the scalar values `str | int | float` become
the inductive `Scalar`.  Every float occurring in the configuration tables
is a short decimal literal (or a numpy value rounded to two decimals), so a
float is embedded as its decimal representation `FloatLit`, whose rendering
coincides with Python's shortest round-trip `str()` on these values.
The subprocess boundary is an oracle `List String → ExecOutcome` mapping an
argument vector to the child's behaviour.
-/

/-- A floating-point value as its (shortest round-trip) decimal text:
integer part and fractional digits.  `Python str(440.0) = "440.0"` is
`⟨440, "0"⟩`. -/
structure FloatLit where
  ip : Nat
  frac : String
deriving DecidableEq, Repr

def FloatLit.render (x : FloatLit) : String :=
  toString x.ip ++ "." ++ x.frac

/-- A scalar configuration value: `str | int | float` in the source's
`Union[str, int, float]`. -/
inductive Scalar where
  | str (s : String)
  | int (n : Int)
  | float (x : FloatLit)
deriving DecidableEq, Repr

/-- Python's `str()` applied to a scalar: strings verbatim, integers as
decimal digits, floats as their shortest round-trip decimal text. -/
def pyStr : Scalar → String
  | .str s => s
  | .int n => toString n
  | .float x => x.render

/-- Abbreviation for a float scalar given as decimal text. -/
def fl (ip : Nat) (frac : String) : Scalar := .float ⟨ip, frac⟩

instance : Inhabited Scalar := ⟨.str ""⟩

/-- Outcome of attempting to spawn the child process with a given argument
vector: it either started and exited with a status code, or failed to
start (e.g. path not found). -/
inductive ExecOutcome where
  | exited (code : Nat)
  | startFailure (reason : String)
deriving DecidableEq, Repr

/-- The exceptions `subprocess.run(args, check=True)` can raise:
`CalledProcessError(returncode, cmd)` on a non-zero exit status, carrying
the exact argument vector, or the `OSError` (e.g. `FileNotFoundError`)
from a failure to start the process, which carries only the strerror
reason and the offending filename — the executable path — and not the
argument vector. -/
inductive InvocationError where
  | calledProcessError (returncode : Nat) (cmd : List String)
  | startFailed (reason : String) (filename : String)
deriving DecidableEq, Repr

/-- The argument-vector construction in `run_rust_program` (main.py:54-58):
`args = [executable_path]`, then for each keyword/value pair append
`"--" + key` and `str(value)`, mirroring the source's loop as a fold. -/
def build_args (executable_path : String) (kwargs : List (String × Scalar)) :
    List String :=
  kwargs.foldl (fun args kv => args ++ ["--" ++ kv.1, pyStr kv.2])
    [executable_path]

/-- Embedding of `run_rust_program` (main.py:37-59): build the argument vector and run
the child synchronously with `check=True`.  Returns the raised exception
(if any) together with the argument vector of the one invocation issued. -/
def run_rust_program (exec : List String → ExecOutcome)
    (executable_path : String) (kwargs : List (String × Scalar)) :
    Except InvocationError Unit × List String :=
  let args := build_args executable_path kwargs
  match exec args with
  | .exited c =>
      if c = 0 then (.ok (), args)
      else (.error (.calledProcessError c args), args)
  | .startFailure r => (.error (.startFailed r executable_path), args)

/-- Embedding of `itertools.product(*values)`: the cartesian product of the value
sequences, first list outermost, last list varying fastest. -/
def product {α : Type} : List (List α) → List (List α)
  | [] => [[]]
  | l :: ls => l.flatMap (fun x => (product ls).map (fun r => x :: r))

/-- The exceptions escaping `execute_scenario`: the `ValueError` raised by
unpacking `zip(*settings.items())` when `settings` is empty, or an
invocation failure propagated from `run_rust_program`. -/
inductive PyError where
  | valueError
  | invocation (e : InvocationError)
deriving DecidableEq, Repr

/-- The `for combination in product(*values)` loop of `execute_scenario`
(main.py:86-88): issue one invocation per combination, in order, stopping
at the first raised exception.  Returns the result together with the trace
of argument vectors actually issued. -/
def run_combinations (exec : List String → ExecOutcome)
    (executable_path : String) (keys : List String) :
    List (List Scalar) → Except InvocationError Unit × List (List String)
  | [] => (.ok (), [])
  | c :: cs =>
    let (r, args) := run_rust_program exec executable_path (keys.zip c)
    match r with
    | .ok _ =>
      let (r2, trace) := run_combinations exec executable_path keys cs
      (r2, args :: trace)
    | .error e => (.error e, [args])

/-- Embedding of `execute_scenario` (main.py:62-88): unpack
`keys, values = zip(*settings.items())` (a `ValueError` when `settings` is
empty) and run the child once per element of `product(*values)`.  Returns
the result together with the trace of argument vectors issued. -/
def execute_scenario (exec : List String → ExecOutcome)
    (executable_path : String) (settings : List (String × List Scalar)) :
    Except PyError Unit × List (List String) :=
  match settings with
  | [] => (.error .valueError, [])
  | _ :: _ =>
    let keys := settings.map Prod.fst
    let values := settings.map Prod.snd
    let (r, trace) := run_combinations exec executable_path keys
      (product values)
    (r.mapError .invocation, trace)

/-- The pure enumeration of argument vectors a successful sweep issues:
one `build_args` per point of the cartesian product, in order. -/
def invocations (executable_path : String)
    (settings : List (String × List Scalar)) : List (List String) :=
  (product (settings.map Prod.snd)).map
    (fun c => build_args executable_path ((settings.map Prod.fst).zip c))

/-- Lookup in a configuration table embedded as an association list
(Python dict indexing; every lookup below hits a present key). -/
def dget (d : List (String × List Scalar)) (k : String) : List Scalar :=
  (d.lookup k).getD []

/-- Table `AUDIO_AMPLITUDE` (constants/audio_amplitude.py). -/
def AUDIO_AMPLITUDE : List (String × List Scalar) :=
  [("low", [fl 0 "5"]), ("standard", [fl 0 "5"]), ("high", [fl 1 "0"])]

/-- Table `AUDIO_BIT_DEPTH` (constants/audio_bit_depth.py). -/
def AUDIO_BIT_DEPTH : List (String × List Scalar) :=
  [("telephone", [.int 8]),
   ("broadcasting", [.int 10, .int 11]),
   ("video_tape", [.int 12, .int 16]),
   ("cd_audio", [.int 16]),
   ("dvd_audio", [.int 16, .int 20, .int 24]),
   ("daw", [.int 4, .int 8, .int 16, .int 24, .int 32, .int 48, .int 64])]

/-- Table `AUDIO_DC_OFFSET` (constants/audio_dcoffset.py). -/
def AUDIO_DC_OFFSET : List (String × List Scalar) :=
  [("none", [fl 0 "0"]), ("low", [fl 0 "5"]), ("medium", [fl 0 "5"]),
   ("high", [fl 1 "0"])]

/-- Table `AUDIO_DURATION` (constants/audio_duration.py). -/
def AUDIO_DURATION : List (String × List Scalar) :=
  [("short", [fl 5 "0"]), ("five_seven", [fl 5 "0", fl 7 "0"]),
   ("medium", [fl 7 "0"]), ("long", [fl 10 "0"])]

/-- Constant `_TUNING_STANDARD_A4` (constants/audio_frequencies.py): standard
6-string guitar tuning frequencies E2, A2, D3, G3, B3, E4. -/
def TUNING_STANDARD_A4 : List Scalar :=
  [fl 82 "41", fl 110 "0", fl 146 "83", fl 196 "0", fl 246 "94",
   fl 329 "63"]

/-- Constant `_TUNING_SEMITONES` (constants/audio_frequencies.py): the 72 values of
`np.round(freq * 2 ** (n / 12), 2)` for each standard-tuning frequency and
n in 0..11, transcribed as the decimal texts `str()` produces for them. -/
def TUNING_SEMITONES : List Scalar :=
  [fl 82 "41", fl 87 "31", fl 92 "5", fl 98 "0",
   fl 103 "83", fl 110 "0", fl 116 "55", fl 123 "48",
   fl 130 "82", fl 138 "6", fl 146 "84", fl 155 "57",
   fl 110 "0", fl 116 "54", fl 123 "47", fl 130 "81",
   fl 138 "59", fl 146 "83", fl 155 "56", fl 164 "81",
   fl 174 "61", fl 185 "0", fl 196 "0", fl 207 "65",
   fl 146 "83", fl 155 "56", fl 164 "81", fl 174 "61",
   fl 184 "99", fl 195 "99", fl 207 "65", fl 220 "0",
   fl 233 "08", fl 246 "94", fl 261 "62", fl 277 "18",
   fl 196 "0", fl 207 "65", fl 220 "0", fl 233 "08",
   fl 246 "94", fl 261 "63", fl 277 "19", fl 293 "67",
   fl 311 "13", fl 329 "63", fl 349 "23", fl 370 "0",
   fl 246 "94", fl 261 "62", fl 277 "18", fl 293 "66",
   fl 311 "12", fl 329 "63", fl 349 "23", fl 369 "99",
   fl 391 "99", fl 415 "3", fl 440 "0", fl 466 "16",
   fl 329 "63", fl 349 "23", fl 370 "0", fl 392 "0",
   fl 415 "31", fl 440 "0", fl 466 "17", fl 493 "89",
   fl 523 "26", fl 554 "37", fl 587 "33", fl 622 "26"]

/-- Table `AUDIO_TUNING` (constants/audio_frequencies.py). -/
def AUDIO_TUNING : List (String × List Scalar) :=
  [("tuning_standard", TUNING_STANDARD_A4),
   ("tuning_semitones", TUNING_SEMITONES)]

/-- Table `AUDIO_NOISE_TYPE` (constants/audio_noise.py:24-28); the "none" noise
type is the one-element tuple containing the empty string. -/
def AUDIO_NOISE_TYPE : List (String × List Scalar) :=
  [("none", [.str ""]), ("white", [.str "white"]), ("pink", [.str "pink"])]

/-- Table `AUDIO_NOISE_VOLUME` (constants/audio_noise.py:30-36). -/
def AUDIO_NOISE_VOLUME : List (String × List Scalar) :=
  [("none", [fl 0 "0"]), ("low", [fl 0 "1"]), ("mid", [fl 0 "3"]),
   ("high", [fl 0 "5"]), ("full", [fl 1 "0"])]

/-- Table `AUDIO_PHASE_SHIFT` (constants/audio_phase_shift.py). -/
def AUDIO_PHASE_SHIFT : List (String × List Scalar) :=
  [("none", [fl 0 "0"]), ("quarter", [fl 45 "0"]), ("half", [fl 90 "0"])]

/-- Table `AUDIO_SAMPLE_RATE` (constants/audio_sample_rates.py). -/
def AUDIO_SAMPLE_RATE : List (String × List Scalar) :=
  [("tv_audio", [.int 8000, .int 16000, .int 32000]),
   ("cd_audio", [.int 22050, .int 44100]),
   ("dvd_audio", [.int 48000, .int 96000]),
   ("blu-ray", [.int 192000])]

/-- Table `AUDIO_WAVE_FORM` (constants/audio_wave_forms.py). -/
def AUDIO_WAVE_FORM : List (String × List Scalar) :=
  [("sine", [.str "sine"]), ("square", [.str "square"]),
   ("triangle", [.str "triangle"])]

/-- Table `SCENARIOS` (constants/sound_scenario.py:50-89): the three shipped
scenarios, keys in source insertion order, tuple concatenation `+`
embedded as list append. -/
def SCENARIOS : List (String × List (String × List Scalar)) :=
  [("Smoke",
    [("waveform_type", dget AUDIO_WAVE_FORM "sine"),
     ("sample_rate", dget AUDIO_SAMPLE_RATE "cd_audio"),
     ("bit_depth", dget AUDIO_BIT_DEPTH "dvd_audio"),
     ("duration", dget AUDIO_DURATION "short"),
     ("frequency", dget AUDIO_TUNING "tuning_standard"),
     ("amplitude", dget AUDIO_AMPLITUDE "standard"),
     ("dc_offset", dget AUDIO_DC_OFFSET "none"),
     ("phase_shift", dget AUDIO_PHASE_SHIFT "none")]),
   ("Normal",
    [("waveform_type", dget AUDIO_WAVE_FORM "sine"),
     ("sample_rate",
      dget AUDIO_SAMPLE_RATE "cd_audio" ++ dget AUDIO_SAMPLE_RATE "dvd_audio"),
     ("bit_depth", dget AUDIO_BIT_DEPTH "dvd_audio"),
     ("duration", dget AUDIO_DURATION "five_seven"),
     ("frequency", dget AUDIO_TUNING "tuning_semitones"),
     ("amplitude", dget AUDIO_AMPLITUDE "standard"),
     ("dc_offset", dget AUDIO_DC_OFFSET "none"),
     ("phase_shift", dget AUDIO_PHASE_SHIFT "none"),
     ("noise_type",
      dget AUDIO_NOISE_TYPE "none" ++ dget AUDIO_NOISE_TYPE "pink"),
     ("noise_volume",
      dget AUDIO_NOISE_VOLUME "none" ++ dget AUDIO_NOISE_VOLUME "low")]),
   ("Stress",
    [("waveform_type", dget AUDIO_WAVE_FORM "sine"),
     ("sample_rate",
      dget AUDIO_SAMPLE_RATE "cd_audio" ++ dget AUDIO_SAMPLE_RATE "dvd_audio"
        ++ dget AUDIO_SAMPLE_RATE "blu-ray"),
     ("bit_depth", dget AUDIO_BIT_DEPTH "dvd_audio"),
     ("duration", dget AUDIO_DURATION "long"),
     ("frequency", [fl 440 "0", fl 880 "0", fl 1760 "0"]),
     ("amplitude", dget AUDIO_AMPLITUDE "standard"),
     ("dc_offset", dget AUDIO_DC_OFFSET "none"),
     ("phase_shift",
      dget AUDIO_PHASE_SHIFT "none" ++ dget AUDIO_PHASE_SHIFT "quarter"),
     ("noise_type",
      dget AUDIO_NOISE_TYPE "white" ++ dget AUDIO_NOISE_TYPE "pink"),
     ("noise_volume",
      dget AUDIO_NOISE_VOLUME "low" ++ dget AUDIO_NOISE_VOLUME "mid")])]

/-- The errors escaping `main` (main.py:91-128): argparse rejects a
scenario name outside `SCENARIOS.keys()` with `SystemExit` before anything
runs; otherwise errors from `execute_scenario` propagate. -/
inductive MainError where
  | systemExit
  | failure (e : PyError)
deriving DecidableEq, Repr

/-- Embedding of `main` (main.py:91-128): validate the scenario name against the
`SCENARIOS` keys (argparse `choices`), look up its settings and delegate to
`execute_scenario`.  Returns the result together with the trace of
invocations issued. -/
def main_run (exec : List String → ExecOutcome)
    (scenario executable_path : String) :
    Except MainError Unit × List (List String) :=
  match SCENARIOS.lookup scenario with
  | none => (.error .systemExit, [])
  | some settings =>
    let (r, trace) := execute_scenario exec executable_path settings
    (r.mapError .failure, trace)

/-- A five-combination single-parameter sweep used to exercise the
fail-fast policy on a concrete input. -/
def fiveSweep : List (String × List Scalar) :=
  [("a", [.int 1, .int 2, .int 3, .int 4, .int 5])]

/-- A child-process oracle that fails (exit status 1) exactly on the third
invocation of `fiveSweep` and succeeds on every other argument vector. -/
def execFailThird : List String → ExecOutcome :=
  fun a => if a = ["tuner", "--a", "3"] then .exited 1 else .exited 0

/-- The first combination the "Normal" scenario enumerates: the head of
every one of its value sequences, whose noise_type value is the empty
string. -/
def normalHeadCombo : List Scalar :=
  [.str "sine", .int 22050, .int 16, fl 5 "0", fl 82 "41", fl 0 "5",
   fl 0 "0", fl 0 "0", .str "", fl 0 "0"]

/-- The combination that multi-radix counting places at index `k` of the
cartesian product of `L`: the digit for each list is the quotient of `k` by
the product of the lengths of the later lists, so the first list is the
outermost loop and the last list varies fastest. -/
def combAt {α : Type} [Inhabited α] : List (List α) → Nat → List α
  | [], _ => []
  | l :: ls, k =>
    l.getD (k / (ls.map List.length).prod) default ::
      combAt ls (k % (ls.map List.length).prod)

/-- The two-parameter example set from the specification:
`{"a": [1, 2], "b": ["x", "y"]}`. -/
def exampleParams : List (String × List Scalar) :=
  [("a", [.int 1, .int 2]), ("b", [.str "x", .str "y"])]

/-- The parameter set of the Smoke scenario, written out literally. -/
def smokeSettings : List (String × List Scalar) :=
  [("waveform_type", [Scalar.str "sine"]),
   ("sample_rate", [.int 22050, .int 44100]),
   ("bit_depth", [.int 16, .int 20, .int 24]),
   ("duration", [fl 5 "0"]),
   ("frequency", TUNING_STANDARD_A4),
   ("amplitude", [fl 0 "5"]),
   ("dc_offset", [fl 0 "0"]),
   ("phase_shift", [fl 0 "0"])]

theorem sum_map_const {α : Type} (l : List α) (c : Nat) :
    (l.map (fun _ => c)).sum = l.length * c := by
  induction l with
  | nil => simp
  | cons a t ih => simp [ih, Nat.succ_mul, Nat.add_comm]

theorem length_product {α : Type} (L : List (List α)) :
    (product L).length = (L.map List.length).prod := by
  induction L with
  | nil => rfl
  | cons l ls ih =>
    show (l.flatMap fun x => (product ls).map (fun r => x :: r)).length = _
    rw [List.length_flatMap]
    simp only [Function.comp_def, List.length_map, ih, sum_map_const,
      List.map_cons, List.prod_cons]

theorem mem_product {α : Type} :
    ∀ {L : List (List α)} {xs : List α},
      xs ∈ product L ↔ List.Forall₂ (fun x l => x ∈ l) xs L := by
  intro L
  induction L with
  | nil =>
    intro xs
    simp [product, List.forall₂_nil_right_iff]
  | cons l ls ih =>
    intro xs
    simp only [product, List.mem_flatMap, List.mem_map, ih,
      List.forall₂_cons_right_iff]
    aesop

theorem flatMap_getElem_uniform {α β : Type} (f : α → List β) (w : Nat)
    (hw : ∀ a, (f a).length = w) :
    ∀ (l : List α) (k : Nat), k < l.length * w →
      (l.flatMap f)[k]? = l[k / w]?.bind (fun a => (f a)[k % w]?) := by
  intro l
  induction l with
  | nil => intro k hk; simp at hk
  | cons a l ih =>
    intro k hk
    have hw0 : 0 < w := by
      rcases Nat.eq_zero_or_pos w with h0 | h0
      · rw [h0, Nat.mul_zero] at hk; omega
      · exact h0
    rw [List.flatMap_cons]
    by_cases h : k < w
    · rw [List.getElem?_append_left (by rw [hw a]; exact h),
        Nat.div_eq_of_lt h, Nat.mod_eq_of_lt h]
      simp
    · obtain ⟨m, rfl⟩ : ∃ m, k = m + w := ⟨k - w, by omega⟩
      rw [List.getElem?_append_right (by rw [hw a]; omega)]
      rw [hw a, Nat.add_sub_cancel, Nat.add_div_right m hw0,
        Nat.add_mod_right]
      have hm : m < l.length * w := by
        rw [List.length_cons, Nat.succ_mul] at hk; omega
      rw [ih m hm]
      simp

theorem product_getElem {α : Type} [Inhabited α] :
    ∀ (L : List (List α)) (k : Nat), k < (L.map List.length).prod →
      (product L)[k]? = some (combAt L k) := by
  intro L
  induction L with
  | nil =>
    intro k hk
    simp at hk
    subst hk
    rfl
  | cons l ls ih =>
    intro k hk
    rw [List.map_cons, List.prod_cons] at hk
    have hw0 : 0 < (ls.map List.length).prod := by
      rcases Nat.eq_zero_or_pos (ls.map List.length).prod with h0 | h0
      · rw [h0, Nat.mul_zero] at hk; omega
      · exact h0
    have hblock : ∀ x : α,
        ((product ls).map (fun r => x :: r)).length =
          (ls.map List.length).prod := by
      intro x
      rw [List.length_map, length_product]
    show (l.flatMap fun x => (product ls).map (fun r => x :: r))[k]? = _
    rw [flatMap_getElem_uniform _ _ hblock l k hk]
    have hdiv : k / (ls.map List.length).prod < l.length :=
      (Nat.div_lt_iff_lt_mul hw0).mpr hk
    rw [List.getElem?_eq_getElem hdiv]
    show ((product ls).map _)[k % (ls.map List.length).prod]? = _
    rw [List.getElem?_map, ih _ (Nat.mod_lt k hw0)]
    simp only [combAt]
    rw [List.getD_eq_getElem l default hdiv]
    rfl

theorem foldl_args_append (kwargs : List (String × Scalar)) :
    ∀ acc : List String,
      kwargs.foldl (fun args kv => args ++ ["--" ++ kv.1, pyStr kv.2]) acc =
        acc ++ kwargs.flatMap (fun kv => ["--" ++ kv.1, pyStr kv.2]) := by
  induction kwargs with
  | nil => intro acc; simp
  | cons kv t ih =>
    intro acc
    rw [List.foldl_cons, ih, List.flatMap_cons, List.append_assoc]

theorem build_args_eq (p : String) (kwargs : List (String × Scalar)) :
    build_args p kwargs =
      p :: kwargs.flatMap (fun kv => ["--" ++ kv.1, pyStr kv.2]) := by
  rw [build_args, foldl_args_append]
  rfl

theorem run_rust_program_exit_zero (exec : List String → ExecOutcome)
    (p : String) (kw : List (String × Scalar))
    (h : exec (build_args p kw) = .exited 0) :
    run_rust_program exec p kw = (.ok (), build_args p kw) := by
  simp only [run_rust_program, h]
  rfl

theorem run_rust_program_exit_nonzero (exec : List String → ExecOutcome)
    (p : String) (kw : List (String × Scalar)) (k : Nat)
    (h : exec (build_args p kw) = .exited k) (hk : k ≠ 0) :
    run_rust_program exec p kw =
      (.error (.calledProcessError k (build_args p kw)), build_args p kw) := by
  simp only [run_rust_program, h, if_neg hk]

theorem run_rust_program_start_failure (exec : List String → ExecOutcome)
    (p : String) (kw : List (String × Scalar)) (r : String)
    (h : exec (build_args p kw) = .startFailure r) :
    run_rust_program exec p kw =
      (.error (.startFailed r p), build_args p kw) := by
  simp only [run_rust_program, h]

theorem run_combinations_all_ok (exec : List String → ExecOutcome)
    (p : String) (keys : List String) (combos : List (List Scalar))
    (h : ∀ c ∈ combos, exec (build_args p (keys.zip c)) = .exited 0) :
    run_combinations exec p keys combos =
      (.ok (), combos.map (fun c => build_args p (keys.zip c))) := by
  induction combos with
  | nil => rfl
  | cons c cs ih =>
    have hc := h c (by simp)
    simp only [run_combinations]
    rw [run_rust_program_exit_zero exec p (keys.zip c) hc]
    dsimp only
    rw [ih (fun x hx => h x (by simp [hx]))]
    rfl

theorem run_combinations_fail (exec : List String → ExecOutcome)
    (p : String) (keys : List String) (pre : List (List Scalar))
    (c : List Scalar) (post : List (List Scalar)) (k : Nat)
    (hpre : ∀ x ∈ pre, exec (build_args p (keys.zip x)) = .exited 0)
    (hc : exec (build_args p (keys.zip c)) = .exited k) (hk : k ≠ 0) :
    run_combinations exec p keys (pre ++ c :: post) =
      (.error (.calledProcessError k (build_args p (keys.zip c))),
       pre.map (fun x => build_args p (keys.zip x)) ++
         [build_args p (keys.zip c)]) := by
  induction pre with
  | nil =>
    rw [List.nil_append]
    simp only [run_combinations]
    rw [run_rust_program_exit_nonzero exec p (keys.zip c) k hc hk]
    rfl
  | cons x xs ih =>
    have hx := hpre x (by simp)
    rw [List.cons_append]
    simp only [run_combinations]
    rw [run_rust_program_exit_zero exec p (keys.zip x) hx]
    dsimp only
    rw [ih (fun y hy => hpre y (by simp [hy]))]
    rfl

theorem lookup_eq_none_of_not_mem_keys {β : Type} (name : String)
    (l : List (String × β)) (h : name ∉ l.map Prod.fst) :
    l.lookup name = none := by
  induction l with
  | nil => rfl
  | cons a t ih =>
    simp only [List.map_cons, List.mem_cons, not_or] at h
    have : (name == a.1) = false := by
      simp only [beq_eq_false_iff_ne, ne_eq]
      exact h.1
    cases a with
    | mk k v =>
      simp only [List.lookup]
      rw [this]
      exact ih h.2

theorem execute_scenario_all_ok (exec : List String → ExecOutcome)
    (p : String) (a : String × List Scalar) (t : List (String × List Scalar))
    (hok : ∀ x, exec x = .exited 0) :
    execute_scenario exec p (a :: t) = (.ok (), invocations p (a :: t)) := by
  have hE : execute_scenario exec p (a :: t) =
      ((run_combinations exec p ((a :: t).map Prod.fst)
          (product ((a :: t).map Prod.snd))).1.mapError .invocation,
       (run_combinations exec p ((a :: t).map Prod.fst)
          (product ((a :: t).map Prod.snd))).2) := rfl
  rw [hE, run_combinations_all_ok _ _ _ _ (fun c _ => hok _)]
  rfl

/-- C1: for a non-empty parameter set whose value sequences have lengths
L1..Ln (all at least 1), a sweep in which every invocation succeeds issues
exactly L1*...*Ln invocations. -/
theorem execute_scenario_invocation_count (exec : List String → ExecOutcome)
    (p : String) (s : List (String × List Scalar)) (hs : s ≠ [])
    (hlen : ∀ kv ∈ s, 1 ≤ kv.2.length) (hok : ∀ a, exec a = .exited 0) :
    (execute_scenario exec p s).2.length =
      (s.map (fun kv => kv.2.length)).prod := by
  cases s with
  | nil => exact absurd rfl hs
  | cons a t =>
    rw [execute_scenario_all_ok exec p a t hok]
    show (invocations p (a :: t)).length = _
    rw [invocations, List.length_map, length_product, List.map_map]
    rfl

/-- C1 witness: the example set {"a": [1, 2], "b": ["x", "y"]} issues
exactly 4 = 2*2 invocations. -/
theorem execute_scenario_invocation_count_witness :
    (execute_scenario (fun _ => ExecOutcome.exited 0) "tuner"
      exampleParams).2.length = 4 :=
  execute_scenario_invocation_count (fun _ => ExecOutcome.exited 0) "tuner"
    exampleParams (by decide) (by decide) (fun _ => rfl)

/-- C2: the enumeration is in multi-radix counting order: the combination
at index k of the cartesian product selects, for each parameter, the value
whose digit is the quotient of k by the product of the lengths of the
later parameters' sequences — so the first parameter is the outermost loop
and the last-listed parameter varies fastest. -/
theorem execute_scenario_enumeration_order (s : List (String × List Scalar))
    (k : Nat) (hk : k < (s.map (fun kv => kv.2.length)).prod) :
    (product (s.map Prod.snd))[k]? = some (combAt (s.map Prod.snd) k) := by
  apply product_getElem
  rw [List.map_map]
  exact hk

/-- C2 witness: {"a": [1, 2], "b": ["x", "y"]} enumerates in the order
(a=1,b=x), (a=1,b=y), (a=2,b=x), (a=2,b=y). -/
theorem execute_scenario_enumeration_order_witness :
    (product (exampleParams.map Prod.snd))[0]? =
        some [Scalar.int 1, Scalar.str "x"] ∧
      (product (exampleParams.map Prod.snd))[1]? =
        some [Scalar.int 1, Scalar.str "y"] ∧
      (product (exampleParams.map Prod.snd))[2]? =
        some [Scalar.int 2, Scalar.str "x"] ∧
      (product (exampleParams.map Prod.snd))[3]? =
        some [Scalar.int 2, Scalar.str "y"] :=
  ⟨execute_scenario_enumeration_order exampleParams 0 (by decide),
   execute_scenario_enumeration_order exampleParams 1 (by decide),
   execute_scenario_enumeration_order exampleParams 2 (by decide),
   execute_scenario_enumeration_order exampleParams 3 (by decide)⟩

/-- C3: after the executable path, the serialized argument list is exactly
the flag/value pairs "--name", str(value) in declaration order — 2*n
tokens for n parameters — and the example set {"freq": [440.0],
"depth": [16]} serializes to ["--freq", "440.0", "--depth", "16"]. -/
theorem run_rust_program_argument_serialization :
    (∀ (p : String) (kwargs : List (String × Scalar)),
        (build_args p kwargs).tail =
          kwargs.flatMap (fun kv => ["--" ++ kv.1, pyStr kv.2]) ∧
        (build_args p kwargs).tail.length = 2 * kwargs.length) ∧
      build_args "gen" [("freq", fl 440 "0"), ("depth", .int 16)] =
        ["gen", "--freq", "440.0", "--depth", "16"] := by
  constructor
  · intro p kwargs
    have h := build_args_eq p kwargs
    constructor
    · rw [h]
      rfl
    · rw [h]
      show (kwargs.flatMap fun kv => ["--" ++ kv.1, pyStr kv.2]).length = _
      rw [List.length_flatMap]
      have h2 : (List.length ∘ fun kv : String × Scalar =>
          ["--" ++ kv.1, pyStr kv.2]) = fun _ : String × Scalar => 2 :=
        funext fun _ => rfl
      rw [h2, sum_map_const, Nat.mul_comm]
  · rfl

/-- C4 (code bug): a parameter whose value sequence is empty does NOT
raise — `execute_scenario` silently issues zero invocations and returns
normally, contradicting its own docstring ("raises ValueError ... if there
are no values for any key"); only the zero-parameter case raises the
promised ValueError. -/
theorem execute_scenario_empty_values_silent
    (exec : List String → ExecOutcome) :
    execute_scenario exec "tuner" [("a", [])] = (.ok (), []) ∧
      execute_scenario exec "tuner" [] = (.error .valueError, []) :=
  ⟨rfl, rfl⟩

/-- C5: invocations are issued strictly in enumeration order, one at a
time; if the invocations before index i succeed and the one at index i
exits non-zero, the sweep stops there: exactly i+1 invocations have
occurred, the error carries the failing argument vector, and the remaining
combinations are never issued. -/
theorem execute_scenario_fail_fast (exec : List String → ExecOutcome)
    (p : String) (s : List (String × List Scalar)) (hs : s ≠ [])
    (i : Nat) (a : List String) (k : Nat)
    (hok : ∀ b ∈ (invocations p s).take i, exec b = .exited 0)
    (hi : (invocations p s)[i]? = some a)
    (hfail : exec a = .exited k) (hk : k ≠ 0) :
    execute_scenario exec p s =
      (.error (.invocation (.calledProcessError k a)),
        (invocations p s).take (i + 1)) := by
  cases s with
  | nil => exact absurd rfl hs
  | cons a0 t =>
    have hinv : invocations p (a0 :: t) =
        (product ((a0 :: t).map Prod.snd)).map
          (fun c => build_args p (((a0 :: t).map Prod.fst).zip c)) := rfl
    rw [hinv] at hok hi ⊢
    rw [List.getElem?_map] at hi
    cases hcg : (product ((a0 :: t).map Prod.snd))[i]? with
    | none => rw [hcg] at hi; simp at hi
    | some c =>
      rw [hcg] at hi
      simp only [Option.map_some'] at hi
      have ha : build_args p (((a0 :: t).map Prod.fst).zip c) = a := by
        exact Option.some.inj hi
      obtain ⟨hlt, hci⟩ := List.getElem?_eq_some.mp hcg
      have hcombos : product ((a0 :: t).map Prod.snd) =
          (product ((a0 :: t).map Prod.snd)).take i ++
            c :: (product ((a0 :: t).map Prod.snd)).drop (i + 1) := by
        conv_lhs =>
          rw [← List.take_append_drop i (product ((a0 :: t).map Prod.snd))]
        congr 1
        rw [← List.getElem_cons_drop _ i hlt, hci]
      have hpre : ∀ x ∈ (product ((a0 :: t).map Prod.snd)).take i,
          exec (build_args p (((a0 :: t).map Prod.fst).zip x)) =
            .exited 0 := by
        intro x hx
        apply hok
        rw [← List.map_take]
        exact List.mem_map_of_mem _ hx
      have hcx : exec (build_args p (((a0 :: t).map Prod.fst).zip c)) =
          .exited k := by
        rw [ha]
        exact hfail
      have htake : ((product ((a0 :: t).map Prod.snd)).map
            (fun x => build_args p (((a0 :: t).map Prod.fst).zip x))).take
              (i + 1) =
          ((product ((a0 :: t).map Prod.snd)).take i).map
              (fun x => build_args p (((a0 :: t).map Prod.fst).zip x)) ++
            [a] := by
        rw [List.take_succ, List.getElem?_map, hcg, ← List.map_take]
        simp only [Option.map_some']
        rw [ha]
        rfl
      have hE : execute_scenario exec p (a0 :: t) =
          ((run_combinations exec p ((a0 :: t).map Prod.fst)
              (product ((a0 :: t).map Prod.snd))).1.mapError .invocation,
           (run_combinations exec p ((a0 :: t).map Prod.fst)
              (product ((a0 :: t).map Prod.snd))).2) := rfl
      rw [hE]
      conv_lhs => rw [hcombos]
      rw [run_combinations_fail exec p ((a0 :: t).map Prod.fst)
        ((product ((a0 :: t).map Prod.snd)).take i) c
        ((product ((a0 :: t).map Prod.snd)).drop (i + 1)) k hpre hcx hk]
      rw [htake, ha]
      rfl

/-- C5 witness: in a five-invocation sweep whose third invocation fails
with exit status 1, exactly three invocations occur, the error references
the third argument vector, and the fourth and fifth never occur. -/
theorem execute_scenario_fail_fast_witness :
    execute_scenario execFailThird "tuner" fiveSweep =
      (.error (.invocation (.calledProcessError 1 ["tuner", "--a", "3"])),
        [["tuner", "--a", "1"], ["tuner", "--a", "2"],
         ["tuner", "--a", "3"]]) :=
  execute_scenario_fail_fast execFailThird "tuner" fiveSweep (by decide) 2
    ["tuner", "--a", "3"] 1 (by decide) (by decide) (by decide) (by decide)

/-- C6 counterexample: the claim is false for start failures — two
invocations with different argument lists but the same executable path
raise identical start-failure errors, so that error cannot carry the
exact argument list used (the OSError carries only errno/strerror and the
executable path). -/
theorem run_rust_program_start_failure_loses_args :
    (run_rust_program (fun _ => .startFailure "No such file or directory")
        "tuner" [("a", Scalar.int 1)]).1 =
      (run_rust_program (fun _ => .startFailure "No such file or directory")
        "tuner" [("a", Scalar.int 2)]).1 ∧
    build_args "tuner" [("a", Scalar.int 1)] ≠
      build_args "tuner" [("a", Scalar.int 2)] :=
  ⟨rfl, by decide⟩

/-- C6 (amended): for a single invocation, child exit status 0 is a
success; a non-zero exit status fails with CalledProcessError carrying the
exit status and the exact argument list used; a failure to start the
process fails carrying the start-failure reason and the executable path
(but not the argument list). -/
theorem run_rust_program_exit_semantics (exec : List String → ExecOutcome)
    (p : String) (kwargs : List (String × Scalar)) :
    (exec (build_args p kwargs) = .exited 0 →
      run_rust_program exec p kwargs = (.ok (), build_args p kwargs)) ∧
    (∀ k, k ≠ 0 → exec (build_args p kwargs) = .exited k →
      run_rust_program exec p kwargs =
        (.error (.calledProcessError k (build_args p kwargs)),
         build_args p kwargs)) ∧
    (∀ r, exec (build_args p kwargs) = .startFailure r →
      run_rust_program exec p kwargs =
        (.error (.startFailed r p), build_args p kwargs)) :=
  ⟨fun h => run_rust_program_exit_zero exec p kwargs h,
   fun k hk h => run_rust_program_exit_nonzero exec p kwargs k h hk,
   fun r h => run_rust_program_start_failure exec p kwargs r h⟩

/-- C6 witness: concrete oracles exercising all three cases on the
argument list ["tuner", "--a", "1"]. -/
theorem run_rust_program_exit_semantics_witness :
    run_rust_program (fun _ => .exited 0) "tuner" [("a", Scalar.int 1)] =
        (.ok (), ["tuner", "--a", "1"]) ∧
      run_rust_program (fun _ => .exited 2) "tuner" [("a", Scalar.int 1)] =
        (.error (.calledProcessError 2 ["tuner", "--a", "1"]),
         ["tuner", "--a", "1"]) ∧
      run_rust_program (fun _ => .startFailure "no such file") "tuner"
          [("a", Scalar.int 1)] =
        (.error (.startFailed "no such file" "tuner"),
         ["tuner", "--a", "1"]) :=
  ⟨(run_rust_program_exit_semantics (fun _ => .exited 0) "tuner"
      [("a", Scalar.int 1)]).1 rfl,
   (run_rust_program_exit_semantics (fun _ => .exited 2) "tuner"
      [("a", Scalar.int 1)]).2.1 2 (by decide) rfl,
   (run_rust_program_exit_semantics (fun _ => .startFailure "no such file")
      "tuner" [("a", Scalar.int 1)]).2.2 "no such file" rfl⟩

/-- C7: the enumeration and serialization are deterministic functions of
the executable path and the parameter set: two runs (with externally
successful invocations) produce identical results and identical invocation
sequences in count, order, and argument content. -/
theorem execute_scenario_deterministic (e1 e2 : List String → ExecOutcome)
    (p : String) (s : List (String × List Scalar))
    (h1 : ∀ x, e1 x = .exited 0) (h2 : ∀ x, e2 x = .exited 0) :
    execute_scenario e1 p s = execute_scenario e2 p s := by
  cases s with
  | nil => rfl
  | cons a t =>
    rw [execute_scenario_all_ok e1 p a t h1,
      execute_scenario_all_ok e2 p a t h2]

/-- C7 witness: two successful runs over the five-combination sweep agree
exactly. -/
theorem execute_scenario_deterministic_witness :
    execute_scenario (fun _ => ExecOutcome.exited 0) "tuner" fiveSweep =
      execute_scenario (fun _ => ExecOutcome.exited (2 - 2)) "tuner"
        fiveSweep :=
  execute_scenario_deterministic _ _ "tuner" fiveSweep (fun _ => rfl)
    (fun _ => rfl)

/-- C8: a scenario name that is not a key of SCENARIOS is rejected
immediately (argparse SystemExit) and zero invocations are attempted. -/
theorem main_run_unknown_scenario (exec : List String → ExecOutcome)
    (name p : String) (h : name ∉ SCENARIOS.map Prod.fst) :
    main_run exec name p = (.error .systemExit, []) := by
  have hl : SCENARIOS.lookup name = none :=
    lookup_eq_none_of_not_mem_keys name SCENARIOS h
  simp only [main_run, hl]

/-- C8 witness: the unknown scenario name "Bogus" is rejected with zero
invocations. -/
theorem main_run_unknown_scenario_witness :
    main_run (fun _ => ExecOutcome.exited 0) "Bogus" "tuner" =
      (.error .systemExit, []) :=
  main_run_unknown_scenario (fun _ => ExecOutcome.exited 0) "Bogus" "tuner"
    (by decide)

/-- C9: every shipped scenario (Smoke, Normal, Stress) has at least one
parameter and every parameter's value sequence is non-empty, so the
non-emptiness precondition holds for all configurations reachable through
the command-line entry point. -/
theorem scenarios_nonempty :
    ∀ sc ∈ SCENARIOS, sc.2 ≠ [] ∧ ∀ kv ∈ sc.2, kv.2 ≠ [] := by decide

/-- C9 witness: the Smoke scenario in particular is non-empty with
non-empty value sequences. -/
theorem scenarios_nonempty_witness :
    ("Smoke", smokeSettings) ∈ SCENARIOS ∧
      (smokeSettings ≠ [] ∧ ∀ kv ∈ smokeSettings, kv.2 ≠ []) :=
  ⟨by decide, scenarios_nonempty ("Smoke", smokeSettings) (by decide)⟩

/-- C10: some invocation reachable from the "Normal" scenario — its first
combination, whose noise_type value is the "none" entry — has an
argument list containing the empty-string token immediately after the
"--noise_type" flag. -/
theorem normal_scenario_empty_noise_token (p : String) :
    ∃ args ∈ invocations p ((SCENARIOS.lookup "Normal").getD []),
      ∃ pre post, args = pre ++ "--noise_type" :: "" :: post := by
  have hcombo : normalHeadCombo ∈
      product (((SCENARIOS.lookup "Normal").getD []).map Prod.snd) := by
    decide
  refine ⟨build_args p
      ((((SCENARIOS.lookup "Normal").getD []).map Prod.fst).zip
        normalHeadCombo),
    List.mem_map_of_mem _ hcombo,
    p :: ["--waveform_type", "sine", "--sample_rate", "22050",
      "--bit_depth", "16", "--duration", "5.0", "--frequency", "82.41",
      "--amplitude", "0.5", "--dc_offset", "0.0", "--phase_shift", "0.0"],
    ["--noise_volume", "0.0"], ?_⟩
  rfl
